import Mathlib

/-!
Verification of the Etihad Stadium match-planning engine
(planificador de partidos del Manchester City).

Shallow embedding of the Python sources under `src/planificador/`:
timestamps are modelled as integer minute counts (`DT`); the Python
`datetime.date()` projection becomes floor division by 1440 (minutes per
day), so `(d1.date() - d2.date()).days` is the difference of the two
floor quotients.  Display names (of referees, teams, events) are
modelled as atoms (`Nat`); every user-facing message template of the
source is represented by a dedicated constructor carrying exactly the
values the Python code interpolates, so equality of the modelled
messages coincides with equality of the rendered strings (the templates
are pairwise textually distinct and the interpolations are injective).
-/

/-- A timestamp: minutes since an arbitrary epoch (models Python `datetime`,
which in the source is always compared, subtracted and truncated to dates). -/
abbrev DT := Int

/-- Day number of a timestamp: models Python `datetime.date()` so that
`(a.date() - b.date()).days = dateOf a - dateOf b`.  Floor division matches
the calendar truncation of negative timestamps as well. -/
def dateOf (t : DT) : Int := t.fdiv 1440

/-- models `recurso.py` `TipoArbitro` -/
inductive TipoArbitro
  | principal
  | linea
  | cuarto
deriving DecidableEq, Repr

/-- models `recurso.py` `Recurso` and its subclass `Arbitro`:
`tipoArbitro = none` is a plain `Recurso`, `tipoArbitro = some t` an
`Arbitro` of that type (this encodes the `isinstance(r, Arbitro)` test). -/
structure Recurso where
  id : Nat
  nombre : Nat
  tipoArbitro : Option TipoArbitro
deriving DecidableEq, Repr

/-- models `isinstance(recurso, Arbitro)` -/
def Recurso.esArbitro (r : Recurso) : Bool := r.tipoArbitro.isSome

/-- models `evento.py` `Evento` (and `Partido`, whose extra team fields are
folded into `nombre` and play no role in validation or planning). -/
structure Evento where
  id : Nat
  nombre : Nat
  fecha_inicio : DT
  fecha_fin : DT
  recursos : List Recurso
deriving DecidableEq, Repr

/-- models `evento.py` `Evento.se_superpone_con`:
`not (self.fecha_fin <= otra_fecha_inicio or self.fecha_inicio >= otra_fecha_fin)` -/
def Evento.se_superpone_con (e : Evento) (otra_fecha_inicio otra_fecha_fin : DT) : Bool :=
  !(decide (e.fecha_fin ≤ otra_fecha_inicio) || decide (e.fecha_inicio ≥ otra_fecha_fin))

/-- models `evento.py` `Evento.contiene_recurso`:
`any(r.id == recurso_id for r in self.recursos)` -/
def Evento.contiene_recurso (e : Evento) (recurso_id : Nat) : Bool :=
  e.recursos.any (fun r => r.id == recurso_id)

/-- One accumulated failure of `RestriccionCoRequisito.validar`; each
constructor is one of the six f-string templates of `restricciones.py`
lines 143-176, carrying the interpolated count. -/
inductive CoReqErr
  | faltaPrincipal (tiene : Nat)
  | sobraPrincipal (tiene : Nat)
  | faltaLinea (tiene : Nat)
  | sobraLinea (tiene : Nat)
  | faltaCuarto (tiene : Nat)
  | sobraCuarto (tiene : Nat)
deriving DecidableEq, Repr

namespace RestriccionCoRequisito

def ARBITROS_PRINCIPALES_REQUERIDOS : Nat := 1

def ARBITROS_LINEA_REQUERIDOS : Nat := 2

def CUARTOS_ARBITROS_REQUERIDOS : Nat := 1

/-- models the counting loop of `restricciones.py` lines 127-137: the number
of resources that are `Arbitro` instances of the given type. -/
def conteo (t : TipoArbitro) (recursos : List Recurso) : Nat :=
  recursos.countP (fun r => r.tipoArbitro == some t)

/-- models `restricciones.py` `RestriccionCoRequisito.validar` (lines
108-182).  The Python function returns `(True, "")` or
`(False, "; ".join(errores))`; here the second component is the `errores`
list itself (the join is injective: no template contains a semicolon). -/
def validar (recursos : List Recurso) : Bool × List CoReqErr :=
  let cP := conteo .principal recursos
  let cL := conteo .linea recursos
  let cC := conteo .cuarto recursos
  let errores :=
    (if cP < ARBITROS_PRINCIPALES_REQUERIDOS then [CoReqErr.faltaPrincipal cP]
     else if cP > ARBITROS_PRINCIPALES_REQUERIDOS then [CoReqErr.sobraPrincipal cP]
     else [])
    ++ (if cL < ARBITROS_LINEA_REQUERIDOS then [CoReqErr.faltaLinea cL]
        else if cL > ARBITROS_LINEA_REQUERIDOS then [CoReqErr.sobraLinea cL]
        else [])
    ++ (if cC < CUARTOS_ARBITROS_REQUERIDOS then [CoReqErr.faltaCuarto cC]
        else if cC > CUARTOS_ARBITROS_REQUERIDOS then [CoReqErr.sobraCuarto cC]
        else [])
  (errores.isEmpty, errores)

end RestriccionCoRequisito

/-- One accumulated failure of `RestriccionExclusionMutua.validar`:
the template of `restricciones.py` lines 258-263, carrying the referee
name, the day of the conflicting start date (the `%d/%m/%Y` rendering
shows exactly the date), the day gap found and the configured minimum. -/
inductive ExclErr
  | noDescanso (nombreArb : Nat) (fechaDia : Int) (dias : Int) (minimo : Nat)
deriving DecidableEq, Repr

namespace RestriccionExclusionMutua

/-- models `restricciones.py` `_calcular_dias_diferencia`:
`abs((fecha1.date() - fecha2.date()).days)` -/
def calcular_dias_diferencia (fecha1 fecha2 : DT) : Int :=
  |dateOf fecha1 - dateOf fecha2|

/-- The inner loop of `RestriccionExclusionMutua.validar` (lines 244-263):
all conflicts of one referee against the existing events, in event order. -/
def conflictosDe (dias_descanso : Nat) (recurso : Recurso) (fecha_inicio : DT)
    (eventos_existentes : List Evento) : List ExclErr :=
  eventos_existentes.filterMap (fun evento =>
    if evento.contiene_recurso recurso.id then
      let dias_diferencia := calcular_dias_diferencia fecha_inicio evento.fecha_inicio
      if dias_diferencia < (dias_descanso : Int) then
        some (.noDescanso recurso.nombre (dateOf evento.fecha_inicio)
                dias_diferencia dias_descanso)
      else none
    else none)

/-- models `restricciones.py` `RestriccionExclusionMutua.validar` (lines
220-269): the nested loops accumulate one error per conflicting
(referee, existing event) pair; the Python function returns
`(False, "; ".join(errores))` on failure, here the list itself.
`fecha_fin` is received (as in the source) but never used. -/
def validar (dias_descanso : Nat) (recursos : List Recurso)
    (fecha_inicio fecha_fin : DT) (eventos_existentes : List Evento) :
    Bool × List ExclErr :=
  let _ := fecha_fin
  let errores := recursos.flatMap (fun recurso =>
    if recurso.esArbitro then
      conflictosDe dias_descanso recurso fecha_inicio eventos_existentes
    else [])
  (errores.isEmpty, errores)

end RestriccionExclusionMutua

/-- The single failure returned by `RestriccionDescansoEstadio.validar`
(which stops at the first failing event): either the direct-overlap
template (lines 361-364, interpolating the event name and its start) or
the rest-gap template (lines 371-384, interpolating the configured days,
the day of the existing event start, and the gap found; the two gap
branches share one template). -/
inductive EstadioErr
  | solape (nombreEvento : Nat) (inicioEvento : DT)
  | descanso (requerido : Nat) (fechaDia : Int) (solo : Int)
deriving DecidableEq, Repr

namespace RestriccionDescansoEstadio

/-- models `restricciones.py` `RestriccionDescansoEstadio.validar` (lines
343-386): iterate the existing events; return the first failure
(direct overlap, then gap before, then gap after), else keep scanning. -/
def validar (dias_descanso : Nat) (fecha_inicio fecha_fin : DT) :
    List Evento → Option EstadioErr
  | [] => none
  | evento :: resto =>
    if evento.se_superpone_con fecha_inicio fecha_fin then
      some (.solape evento.nombre evento.fecha_inicio)
    else
      let dias_antes := dateOf fecha_inicio - dateOf evento.fecha_fin
      let dias_despues := dateOf evento.fecha_inicio - dateOf fecha_fin
      if 0 ≤ dias_antes ∧ dias_antes < (dias_descanso : Int) then
        some (.descanso dias_descanso (dateOf evento.fecha_inicio) dias_antes)
      else if 0 ≤ dias_despues ∧ dias_despues < (dias_descanso : Int) then
        some (.descanso dias_descanso (dateOf evento.fecha_inicio) dias_despues)
      else validar dias_descanso fecha_inicio fecha_fin resto

end RestriccionDescansoEstadio

/-- One entry of the `errores` list built by
`Validador.validar_evento_completo`.  The first three constructors are the
raw strings of `validador.py` (overlap message of
`validar_conflicto_estadio`, its rest-gap message, and the message of
`validar_disponibilidad_arbitro`); the last three are the messages of
`validar_restricciones`, each tagged in Python with the bracketed
restriction name, hence textually disjoint from everything else. -/
inductive Mensaje
  | conflictoHorario (nombreEvento : Nat) (inicioEvento finEvento : DT)
  | estadioDescanso (requerido : Nat) (fechaDia : Int) (solo : Int)
  | arbitroNoDisponible (nombreArb : Nat) (fechaDia : Int) (dias : Int)
  | restCoReq (errs : List CoReqErr)
  | restExclusion (errs : List ExclErr)
  | restEstadio (err : EstadioErr)
deriving DecidableEq, Repr

namespace Validador

/-- models the `validador.py` class constant for the stadium rest period
(2 days); renamed from its all-caps source spelling. -/
def diasDescansoEstadio : Nat := 2

def DIAS_DESCANSO_ARBITROS : Nat := 7

/-- models `validador.py` `Validador.validar_conflicto_estadio` (lines
223-273): same early-return scan as `RestriccionDescansoEstadio.validar`,
with the Validador constant (2 days) and its own message templates. -/
def validar_conflicto_estadio (fecha_inicio fecha_fin : DT) :
    List Evento → Option Mensaje
  | [] => none
  | evento :: resto =>
    if evento.se_superpone_con fecha_inicio fecha_fin then
      some (.conflictoHorario evento.nombre evento.fecha_inicio evento.fecha_fin)
    else
      let dias_antes := dateOf fecha_inicio - dateOf evento.fecha_fin
      let dias_despues := dateOf evento.fecha_inicio - dateOf fecha_fin
      if 0 ≤ dias_antes ∧ dias_antes < (diasDescansoEstadio : Int) then
        some (.estadioDescanso diasDescansoEstadio (dateOf evento.fecha_inicio) dias_antes)
      else if 0 ≤ dias_despues ∧ dias_despues < (diasDescansoEstadio : Int) then
        some (.estadioDescanso diasDescansoEstadio (dateOf evento.fecha_inicio) dias_despues)
      else validar_conflicto_estadio fecha_inicio fecha_fin resto

/-- models `validador.py` `Validador.validar_disponibilidad_arbitro` (lines
279-320): scan the existing events; on the first one containing the
referee at a day distance below 7, return its message.  `fecha_fin` is
received but unused in the source as well. -/
def validar_disponibilidad_arbitro (arbitro : Recurso) (fecha_inicio fecha_fin : DT) :
    List Evento → Option Mensaje
  | [] => none
  | evento :: resto =>
    if evento.contiene_recurso arbitro.id then
      let dias_diferencia := |dateOf fecha_inicio - dateOf evento.fecha_inicio|
      if dias_diferencia < (DIAS_DESCANSO_ARBITROS : Int) then
        some (.arbitroNoDisponible arbitro.nombre (dateOf evento.fecha_inicio) dias_diferencia)
      else validar_disponibilidad_arbitro arbitro fecha_inicio fecha_fin resto
    else validar_disponibilidad_arbitro arbitro fecha_inicio fecha_fin resto

/-- models `validador.py` `Validador.validar_restricciones` (lines 345-372)
with the three restrictions installed by `Validador.__init__`, in order:
co-requisite, mutual exclusion (7 days), stadium rest (2 days); each
failing restriction contributes its bracketed-name message. -/
def validar_restricciones (recursos : List Recurso) (fecha_inicio fecha_fin : DT)
    (eventos_existentes : List Evento) : Bool × List Mensaje :=
  let r1 := RestriccionCoRequisito.validar recursos
  let r2 := RestriccionExclusionMutua.validar DIAS_DESCANSO_ARBITROS recursos
              fecha_inicio fecha_fin eventos_existentes
  let r3 := RestriccionDescansoEstadio.validar diasDescansoEstadio
              fecha_inicio fecha_fin eventos_existentes
  let errores :=
    (if r1.1 then [] else [Mensaje.restCoReq r1.2])
    ++ (if r2.1 then [] else [Mensaje.restExclusion r2.2])
    ++ (match r3 with | none => [] | some err => [Mensaje.restEstadio err])
  (errores.isEmpty, errores)

/-- models `validador.py` `Validador.validar_evento_completo` (lines
378-441): step 1 the stadium-conflict check, step 2 one availability
check per `Arbitro` in the candidate resources, step 3 the three
restrictions, appended only when not already textually present. -/
def validar_evento_completo (evento : Evento) (eventos_existentes : List Evento) :
    Bool × List Mensaje :=
  let paso1 := (validar_conflicto_estadio evento.fecha_inicio evento.fecha_fin
                  eventos_existentes).toList
  let paso2 := (evento.recursos.filter (fun r => r.esArbitro)).filterMap
                  (fun r => validar_disponibilidad_arbitro r evento.fecha_inicio
                              evento.fecha_fin eventos_existentes)
  let r3 := validar_restricciones evento.recursos evento.fecha_inicio
              evento.fecha_fin eventos_existentes
  let errores := r3.2.foldl
    (fun acc mensaje => if mensaje ∈ acc then acc else acc ++ [mensaje])
    (paso1 ++ paso2)
  (errores.isEmpty, errores)

end Validador

/-- Insertion-ordered dictionary assignment `d[k] = v` of a Python dict:
replace in place when the key exists, append otherwise. -/
def dictSet {α : Type} : List (Nat × α) → Nat → α → List (Nat × α)
  | [], k, v => [(k, v)]
  | (k0, v0) :: resto, k, v =>
    if k0 = k then (k, v) :: resto else (k0, v0) :: dictSet resto k v

/-- Python `k in d` on a dict. -/
def dictContains {α : Type} (d : List (Nat × α)) (k : Nat) : Bool :=
  d.any (fun kv => kv.1 == k)

/-- Python `del d[k]` on a dict (removes the entry, keeps the order). -/
def dictBorrar {α : Type} : List (Nat × α) → Nat → List (Nat × α)
  | [], _ => []
  | (k0, v0) :: resto, k =>
    if k0 = k then resto else (k0, v0) :: dictBorrar resto k

/-- Result message of `PlanificadorEventos.eliminar_recurso`: the three
return strings of `planificador.py` lines 83-97. -/
inductive ElimMsg
  | noEncontrado
  | asignadoFuturos (n : Nat)
  | eliminado
deriving DecidableEq, Repr

/-- The dictionary returned by
`_obtener_arbitros_disponibles_todos_tipos` (its three fixed keys become
three fields). -/
structure ArbitrosDisponibles where
  principales : List Recurso
  linea : List Recurso
  cuartos : List Recurso
deriving DecidableEq, Repr

namespace PlanificadorEventos

/-- models the state of `planificador.py` `PlanificadorEventos`: the two
insertion-ordered dicts `eventos` and `recursos`. -/
structure Estado where
  eventos : List (Nat × Evento)
  recursos : List (Nat × Recurso)
deriving DecidableEq, Repr

/-- models `obtener_eventos`: `list(self.eventos.values())` -/
def obtener_eventos (p : Estado) : List Evento := p.eventos.map (fun kv => kv.2)

/-- models `obtener_eventos_recurso` without the final `sorted(...)` by
start date: the engine uses the result only through its length and
emptiness after filtering (in `eliminar_recurso`), which are invariant
under the permutation the sort performs. -/
def obtener_eventos_recurso (p : Estado) (recurso_id : Nat) : List Evento :=
  (obtener_eventos p).filter (fun e => e.contiene_recurso recurso_id)

/-- models `planificador.py` `PlanificadorEventos.planificar_evento` (lines
280-308): validate against all stored events; on failure return the
accumulated errors (Python joins them with newlines) and leave the state
untouched; on success insert the event keyed by its id. -/
def planificar_evento (p : Estado) (evento : Evento) :
    (Bool × List Mensaje) × Estado :=
  let eventos_existentes := obtener_eventos p
  let r := Validador.validar_evento_completo evento eventos_existentes
  if r.1 then
    ((true, []), { p with eventos := dictSet p.eventos evento.id evento })
  else
    ((false, r.2), p)

/-- models `planificador.py` `PlanificadorEventos.eliminar_recurso` (lines
71-97); `ahora` is the value of `datetime.now()` at the check. -/
def eliminar_recurso (p : Estado) (recurso_id : Nat) (ahora : DT) :
    (Bool × ElimMsg) × Estado :=
  if !(dictContains p.recursos recurso_id) then
    ((false, .noEncontrado), p)
  else
    let eventos_futuros := (obtener_eventos_recurso p recurso_id).filter
      (fun e => ahora < e.fecha_inicio)
    if !eventos_futuros.isEmpty then
      ((false, .asignadoFuturos eventos_futuros.length), p)
    else
      ((true, .eliminado), { p with recursos := dictBorrar p.recursos recurso_id })

/-- models `obtener_recursos_por_tipo`:
`[r for r in self.recursos.values() if isinstance(r, Arbitro) and r.tipo == tipo]` -/
def obtener_recursos_por_tipo (p : Estado) (tipo : TipoArbitro) : List Recurso :=
  (p.recursos.map (fun kv => kv.2)).filter (fun r => r.tipoArbitro == some tipo)

/-- models `verificar_disponibilidad_recurso` (lines 257-278): an `Arbitro`
is available when `validar_disponibilidad_arbitro` raises no message
against all stored events; any other resource is always available. -/
def verificar_disponibilidad_recurso (p : Estado) (recurso : Recurso)
    (fecha_inicio fecha_fin : DT) : Bool :=
  if recurso.esArbitro then
    (Validador.validar_disponibilidad_arbitro recurso fecha_inicio fecha_fin
      (obtener_eventos p)).isNone
  else true

/-- models `obtener_arbitros_disponibles` (lines 135-166) with its default
empty exclusion list: the referees of the type that pass the
availability check, in registry order. -/
def obtener_arbitros_disponibles (p : Estado) (tipo : TipoArbitro)
    (fecha_inicio fecha_fin : DT) : List Recurso :=
  (obtener_recursos_por_tipo p tipo).filter
    (fun a => verificar_disponibilidad_recurso p a fecha_inicio fecha_fin)

/-- models `_obtener_arbitros_disponibles_todos_tipos` (lines 473-495). -/
def obtener_arbitros_disponibles_todos_tipos (p : Estado)
    (fecha_inicio fecha_fin : DT) : ArbitrosDisponibles :=
  { principales := obtener_arbitros_disponibles p .principal fecha_inicio fecha_fin
    linea := obtener_arbitros_disponibles p .linea fecha_inicio fecha_fin
    cuartos := obtener_arbitros_disponibles p .cuarto fecha_inicio fecha_fin }

/-- models `_hay_equipo_arbitral_completo` (lines 497-511). -/
def hay_equipo_arbitral_completo (d : ArbitrosDisponibles) : Bool :=
  decide (d.principales.length ≥ 1) && decide (d.linea.length ≥ 2)
    && decide (d.cuartos.length ≥ 1)

/-- models `_verificar_disponibilidad_estadio` (lines 453-471). -/
def verificar_disponibilidad_estadio (p : Estado) (fecha_inicio fecha_fin : DT) : Bool :=
  (Validador.validar_conflicto_estadio fecha_inicio fecha_fin (obtener_eventos p)).isNone

/-- models `planificador.py` line 417: the fixed kickoff hours tried on
each candidate day. -/
def horarios_partido : List Nat := [12, 15, 17, 20]

/-- models `fecha_actual.replace(hour=hora, minute=0, second=0, microsecond=0)`. -/
def replaceHora (t : DT) (hora : Nat) : DT := (t.fdiv 1440) * 1440 + (hora : Int) * 60

/-- The body of the inner `for hora in horarios_partido` loop of
`buscar_proximo_horario` (lines 420-446) for one hour: `none` when the
candidate is skipped (already past), the stadium is busy, or the referee
quotas are not met; otherwise the accepted timestamp with the
per-category availability lists.  `ahora` is the `datetime.now()` value. -/
def probarHora (p : Estado) (ahora : DT) (duracion_horas : Nat) (fecha_actual : DT)
    (hora : Nat) : Option (DT × ArbitrosDisponibles) :=
  let fecha_inicio := replaceHora fecha_actual hora
  if fecha_inicio < ahora then none
  else
    let fecha_fin := fecha_inicio + (duracion_horas : Int) * 60
    if !(verificar_disponibilidad_estadio p fecha_inicio fecha_fin) then none
    else
      let arbitros_disponibles :=
        obtener_arbitros_disponibles_todos_tipos p fecha_inicio fecha_fin
      if hay_equipo_arbitral_completo arbitros_disponibles then
        some (fecha_inicio, arbitros_disponibles)
      else none

/-- The `while fecha_actual < fecha_limite` loop of
`buscar_proximo_horario`: since `fecha_actual` advances by exactly one day
per iteration from `fecha_desde` and
`fecha_limite = fecha_desde + max_dias * 1 day`, the guard holds for
exactly `max_dias` iterations, which is the fuel used here. -/
def buscarDias (p : Estado) (ahora : DT) (duracion_horas : Nat) :
    DT → Nat → Option (DT × ArbitrosDisponibles)
  | _, 0 => none
  | fecha_actual, n + 1 =>
    match horarios_partido.findSome? (probarHora p ahora duracion_horas fecha_actual) with
    | some res => some res
    | none => buscarDias p ahora duracion_horas (fecha_actual + 1440) n

/-- models `planificador.py` `PlanificadorEventos.buscar_proximo_horario`
(lines 394-451); defaults in the source: `duracion_horas = 2`,
`max_dias_busqueda = 60`. -/
def buscar_proximo_horario (p : Estado) (fecha_desde : DT) (duracion_horas : Nat)
    (max_dias_busqueda : Nat) (ahora : DT) : Option (DT × ArbitrosDisponibles) :=
  buscarDias p ahora duracion_horas fecha_desde max_dias_busqueda

end PlanificadorEventos

/-- models `main.py` line 297: the CLI always derives the end timestamp as
`fecha_inicio + timedelta(hours=duracion_horas)` with `duracion_horas = 2`. -/
def mainFechaFin (fecha_inicio : DT) (duracion_horas : Nat) : DT :=
  fecha_inicio + (duracion_horas : Int) * 60

/-- A complete refereeing team: 1 principal, 2 line, 1 fourth. -/
def equipoCompleto : List Recurso :=
  [⟨1, 1, some .principal⟩, ⟨2, 2, some .linea⟩, ⟨3, 3, some .linea⟩,
   ⟨4, 4, some .cuarto⟩]

/-- Spec-side description of the slot enumeration performed by
`buscar_proximo_horario`: candidate days one at a time from the search
start up to the horizon, and on each day the fixed kickoff hours in
their listed order (12:00, 15:00, 17:00, 20:00). -/
def candidatosDesde (fecha_desde : DT) : Nat → List DT
  | 0 => []
  | n + 1 =>
    PlanificadorEventos.horarios_partido.map
        (PlanificadorEventos.replaceHora fecha_desde)
      ++ candidatosDesde (fecha_desde + 1440) n

/-- Spec-side acceptance test for one candidate kickoff: not strictly
earlier than the evaluation-time clock, stadium free (overlap plus 2-day
gap against every stored event), and at least the 1-2-1 quota of
available referees in every category. -/
def aceptaHorario (p : PlanificadorEventos.Estado) (ahora : DT)
    (duracion_horas : Nat) (ini : DT) : Bool :=
  decide (ahora ≤ ini)
    && PlanificadorEventos.verificar_disponibilidad_estadio p ini
        (ini + (duracion_horas : Int) * 60)
    && PlanificadorEventos.hay_equipo_arbitral_completo
        (PlanificadorEventos.obtener_arbitros_disponibles_todos_tipos p ini
          (ini + (duracion_horas : Int) * 60))

section CoRequisitoLemmas

open RestriccionCoRequisito

theorem quota_block_empty (cnt req : Nat) (a b : CoReqErr) :
    ((if cnt < req then [a] else if cnt > req then [b] else []) = ([] : List CoReqErr))
      ↔ cnt = req := by
  split_ifs <;> simp <;> omega

theorem quota_block_mem (cnt req : Nat) (a b e : CoReqErr) :
    (e ∈ (if cnt < req then [a] else if cnt > req then [b] else [])) ↔
      (cnt < req ∧ e = a) ∨ (req < cnt ∧ e = b) := by
  split_ifs with h1 h2
  · simp [h1, show ¬req < cnt by omega]
  · simp [h2, show ¬cnt < req by omega]
  · simp [h1, h2]

theorem coReq_validar_fst_iff (recursos : List Recurso) :
    (validar recursos).1 = true ↔
      conteo .principal recursos = 1 ∧ conteo .linea recursos = 2 ∧
        conteo .cuarto recursos = 1 := by
  show (_ ++ _ ++ _ : List CoReqErr).isEmpty = true ↔ _
  rw [List.isEmpty_iff, List.append_eq_nil, List.append_eq_nil]
  rw [quota_block_empty, quota_block_empty, quota_block_empty]
  unfold ARBITROS_PRINCIPALES_REQUERIDOS ARBITROS_LINEA_REQUERIDOS
    CUARTOS_ARBITROS_REQUERIDOS
  tauto

theorem coReq_validar_snd_mem (recursos : List Recurso) (e : CoReqErr) :
    e ∈ (validar recursos).2 ↔
      (conteo .principal recursos < 1 ∧ e = .faltaPrincipal (conteo .principal recursos))
      ∨ (1 < conteo .principal recursos ∧ e = .sobraPrincipal (conteo .principal recursos))
      ∨ (conteo .linea recursos < 2 ∧ e = .faltaLinea (conteo .linea recursos))
      ∨ (2 < conteo .linea recursos ∧ e = .sobraLinea (conteo .linea recursos))
      ∨ (conteo .cuarto recursos < 1 ∧ e = .faltaCuarto (conteo .cuarto recursos))
      ∨ (1 < conteo .cuarto recursos ∧ e = .sobraCuarto (conteo .cuarto recursos)) := by
  show e ∈ (_ ++ _ ++ _ : List CoReqErr) ↔ _
  rw [List.mem_append, List.mem_append]
  rw [quota_block_mem, quota_block_mem, quota_block_mem]
  unfold ARBITROS_PRINCIPALES_REQUERIDOS ARBITROS_LINEA_REQUERIDOS
    CUARTOS_ARBITROS_REQUERIDOS
  tauto

theorem conteo_insert_no_arbitro (t : TipoArbitro) (l1 l2 : List Recurso) (r : Recurso)
    (h : r.esArbitro = false) :
    conteo t (l1 ++ r :: l2) = conteo t (l1 ++ l2) := by
  have hr : (r.tipoArbitro == some t) = false := by
    cases hv : r.tipoArbitro with
    | none => rfl
    | some _ => simp [Recurso.esArbitro, hv] at h
  simp [conteo, List.countP_append, List.countP_cons, hr]

theorem conteo_append_no_arbitros (t : TipoArbitro) (l extras : List Recurso)
    (h : ∀ x ∈ extras, x.esArbitro = false) :
    conteo t (l ++ extras) = conteo t l := by
  have hz : conteo t extras = 0 := by
    rw [conteo, List.countP_eq_zero]
    intro x hx
    have hx2 := h x hx
    cases hv : x.tipoArbitro with
    | none => simp [hv]
    | some _ => simp [Recurso.esArbitro, hv] at hx2
  unfold conteo at hz ⊢
  rw [List.countP_append]
  omega

end CoRequisitoLemmas

/-- C1: the co-requisite check passes iff the candidate set holds exactly
1 principal, 2 line and 1 fourth referee; each deviating category (too
few or too many) contributes its own distinct failure reason, and the
reasons of all simultaneously deviating categories are all present in
the accumulated result. -/
theorem coRequisito_cuotas_exactas (recursos : List Recurso) :
    ((RestriccionCoRequisito.validar recursos).1 = true ↔
      RestriccionCoRequisito.conteo .principal recursos = 1 ∧
      RestriccionCoRequisito.conteo .linea recursos = 2 ∧
      RestriccionCoRequisito.conteo .cuarto recursos = 1)
    ∧ ∀ e : CoReqErr, e ∈ (RestriccionCoRequisito.validar recursos).2 ↔
      (RestriccionCoRequisito.conteo .principal recursos < 1 ∧
        e = .faltaPrincipal (RestriccionCoRequisito.conteo .principal recursos))
      ∨ (1 < RestriccionCoRequisito.conteo .principal recursos ∧
        e = .sobraPrincipal (RestriccionCoRequisito.conteo .principal recursos))
      ∨ (RestriccionCoRequisito.conteo .linea recursos < 2 ∧
        e = .faltaLinea (RestriccionCoRequisito.conteo .linea recursos))
      ∨ (2 < RestriccionCoRequisito.conteo .linea recursos ∧
        e = .sobraLinea (RestriccionCoRequisito.conteo .linea recursos))
      ∨ (RestriccionCoRequisito.conteo .cuarto recursos < 1 ∧
        e = .faltaCuarto (RestriccionCoRequisito.conteo .cuarto recursos))
      ∨ (1 < RestriccionCoRequisito.conteo .cuarto recursos ∧
        e = .sobraCuarto (RestriccionCoRequisito.conteo .cuarto recursos)) :=
  ⟨coReq_validar_fst_iff recursos, coReq_validar_snd_mem recursos⟩

/-- C10: only `Arbitro` instances count toward the co-requisite quotas:
inserting (or, read right to left, removing) a non-referee resource
anywhere in the candidate list changes neither the verdict nor the
messages; in particular a complete 1-2-1 team plus any number of
non-referee resources still passes. -/
theorem coRequisito_ignora_no_arbitros :
    (∀ (l1 l2 : List Recurso) (r : Recurso), r.esArbitro = false →
      RestriccionCoRequisito.validar (l1 ++ r :: l2) =
        RestriccionCoRequisito.validar (l1 ++ l2))
    ∧ ∀ extras : List Recurso, (∀ x ∈ extras, x.esArbitro = false) →
      (RestriccionCoRequisito.validar (equipoCompleto ++ extras)).1 = true := by
  constructor
  · intro l1 l2 r h
    unfold RestriccionCoRequisito.validar
    rw [conteo_insert_no_arbitro .principal l1 l2 r h,
      conteo_insert_no_arbitro .linea l1 l2 r h,
      conteo_insert_no_arbitro .cuarto l1 l2 r h]
  · intro extras h
    rw [coReq_validar_fst_iff]
    rw [conteo_append_no_arbitros .principal equipoCompleto extras h,
      conteo_append_no_arbitros .linea equipoCompleto extras h,
      conteo_append_no_arbitros .cuarto equipoCompleto extras h]
    refine ⟨by decide, by decide, by decide⟩

/-- Witness for C10 at a concrete non-referee resource. -/
theorem coRequisito_ignora_no_arbitros_witness :
    RestriccionCoRequisito.validar
        ([⟨1, 1, some .principal⟩] ++ ⟨9, 9, none⟩ :: [⟨4, 4, some .cuarto⟩]) =
      RestriccionCoRequisito.validar ([⟨1, 1, some .principal⟩] ++ [⟨4, 4, some .cuarto⟩])
    ∧ (RestriccionCoRequisito.validar (equipoCompleto ++ [⟨9, 9, none⟩])).1 = true :=
  ⟨coRequisito_ignora_no_arbitros.1 [⟨1, 1, some .principal⟩] [⟨4, 4, some .cuarto⟩]
      ⟨9, 9, none⟩ (by decide),
   coRequisito_ignora_no_arbitros.2 [⟨9, 9, none⟩] (by decide)⟩

section ExclusionLemmas

open RestriccionExclusionMutua

theorem conflictosDe_mem (dias : Nat) (r : Recurso) (ini : DT) (evs : List Evento)
    (e : ExclErr) :
    e ∈ conflictosDe dias r ini evs ↔
      ∃ ev ∈ evs, ev.contiene_recurso r.id = true ∧
        |dateOf ini - dateOf ev.fecha_inicio| < (dias : Int) ∧
        e = .noDescanso r.nombre (dateOf ev.fecha_inicio)
              (|dateOf ini - dateOf ev.fecha_inicio|) dias := by
  simp only [conflictosDe, calcular_dias_diferencia, List.mem_filterMap]
  constructor
  · rintro ⟨ev, hev, hsome⟩
    split_ifs at hsome with h1 h2
    · exact ⟨ev, hev, h1, h2, (Option.some_inj.mp hsome).symm⟩
  · rintro ⟨ev, hev, h1, h2, he⟩
    refine ⟨ev, hev, ?_⟩
    rw [if_pos h1, if_pos h2, he]

theorem excl_validar_snd_mem (dias : Nat) (recursos : List Recurso) (ini fin : DT)
    (evs : List Evento) (e : ExclErr) :
    e ∈ (RestriccionExclusionMutua.validar dias recursos ini fin evs).2 ↔
      ∃ r ∈ recursos, r.esArbitro = true ∧ ∃ ev ∈ evs,
        ev.contiene_recurso r.id = true ∧
        |dateOf ini - dateOf ev.fecha_inicio| < (dias : Int) ∧
        e = .noDescanso r.nombre (dateOf ev.fecha_inicio)
              (|dateOf ini - dateOf ev.fecha_inicio|) dias := by
  have hsnd : (RestriccionExclusionMutua.validar dias recursos ini fin evs).2 =
      recursos.flatMap (fun r =>
        if r.esArbitro then conflictosDe dias r ini evs else []) := rfl
  rw [hsnd, List.mem_flatMap]
  constructor
  · rintro ⟨r, hr, he⟩
    by_cases ha : r.esArbitro = true
    · rw [if_pos ha, conflictosDe_mem] at he
      obtain ⟨ev, hev, h1, h2, he⟩ := he
      exact ⟨r, hr, ha, ev, hev, h1, h2, he⟩
    · rw [if_neg ha] at he
      cases he
  · rintro ⟨r, hr, ha, ev, hev, h1, h2, he⟩
    refine ⟨r, hr, ?_⟩
    rw [if_pos ha, conflictosDe_mem]
    exact ⟨ev, hev, h1, h2, he⟩

theorem excl_validar_fst_iff (dias : Nat) (recursos : List Recurso) (ini fin : DT)
    (evs : List Evento) :
    (RestriccionExclusionMutua.validar dias recursos ini fin evs).1 = true ↔
      ∀ r ∈ recursos, r.esArbitro = true → ∀ ev ∈ evs,
        ev.contiene_recurso r.id = true →
          (dias : Int) ≤ |dateOf ini - dateOf ev.fecha_inicio| := by
  have hfst : (RestriccionExclusionMutua.validar dias recursos ini fin evs).1 =
      (RestriccionExclusionMutua.validar dias recursos ini fin evs).2.isEmpty := rfl
  rw [hfst, List.isEmpty_iff, List.eq_nil_iff_forall_not_mem]
  constructor
  · intro h r hr ha ev hev hc
    by_contra hlt
    push_neg at hlt
    exact h _ ((excl_validar_snd_mem dias recursos ini fin evs _).mpr
      ⟨r, hr, ha, ev, hev, hc, hlt, rfl⟩)
  · intro h e he
    rw [excl_validar_snd_mem] at he
    obtain ⟨r, hr, ha, ev, hev, hc, hlt, _⟩ := he
    exact absurd (h r hr ha ev hev hc) (not_le.mpr hlt)

end ExclusionLemmas

/-- C2: with the 7-day rest threshold, the mutual-exclusion check passes
iff no referee of the candidate set appears in an existing event whose
start date is less than 7 calendar days away (absolute difference of the
two start dates, time of day ignored, so symmetric and independent of
event duration: the third conjunct shows the result does not depend on
the candidate end at all); a gap of exactly 7 days passes; every
conflicting (referee, existing event) pair contributes its own
accumulated failure, with no short-circuit. -/
theorem exclusionMutua_descanso_arbitros (recursos : List Recurso)
    (fecha_inicio fecha_fin : DT) (eventos : List Evento) :
    ((RestriccionExclusionMutua.validar 7 recursos fecha_inicio fecha_fin eventos).1 = true ↔
      ∀ r ∈ recursos, r.esArbitro = true → ∀ ev ∈ eventos,
        ev.contiene_recurso r.id = true →
          (7 : Int) ≤ |dateOf fecha_inicio - dateOf ev.fecha_inicio|)
    ∧ (∀ e : ExclErr,
        e ∈ (RestriccionExclusionMutua.validar 7 recursos fecha_inicio fecha_fin eventos).2 ↔
        ∃ r ∈ recursos, r.esArbitro = true ∧ ∃ ev ∈ eventos,
          ev.contiene_recurso r.id = true ∧
          |dateOf fecha_inicio - dateOf ev.fecha_inicio| < (7 : Int) ∧
          e = .noDescanso r.nombre (dateOf ev.fecha_inicio)
                (|dateOf fecha_inicio - dateOf ev.fecha_inicio|) 7)
    ∧ ∀ fin2 : DT,
        RestriccionExclusionMutua.validar 7 recursos fecha_inicio fin2 eventos =
          RestriccionExclusionMutua.validar 7 recursos fecha_inicio fecha_fin eventos :=
  ⟨excl_validar_fst_iff 7 recursos fecha_inicio fecha_fin eventos,
   excl_validar_snd_mem 7 recursos fecha_inicio fecha_fin eventos,
   fun _ => rfl⟩

/-- Witness for C2: a referee whose only other match starts exactly 7 days
away passes, and the same referee 3 days away yields exactly the
accumulated conflict. -/
theorem exclusionMutua_descanso_arbitros_witness :
    (RestriccionExclusionMutua.validar 7 [⟨1, 1, some .principal⟩] 0 120
      [⟨50, 50, 7 * 1440, 7 * 1440 + 120, [⟨1, 1, some .principal⟩]⟩]).1 = true
    ∧ ExclErr.noDescanso 1 3 3 7 ∈
        (RestriccionExclusionMutua.validar 7 [⟨1, 1, some .principal⟩] 0 120
          [⟨50, 50, 3 * 1440, 3 * 1440 + 120, [⟨1, 1, some .principal⟩]⟩]).2 :=
  ⟨(exclusionMutua_descanso_arbitros [⟨1, 1, some .principal⟩] 0 120
      [⟨50, 50, 7 * 1440, 7 * 1440 + 120, [⟨1, 1, some .principal⟩]⟩]).1.mpr (by decide),
   ((exclusionMutua_descanso_arbitros [⟨1, 1, some .principal⟩] 0 120
      [⟨50, 50, 3 * 1440, 3 * 1440 + 120, [⟨1, 1, some .principal⟩]⟩]).2.1 _).mpr
     ⟨⟨1, 1, some .principal⟩, by decide, by decide,
      ⟨50, 50, 3 * 1440, 3 * 1440 + 120, [⟨1, 1, some .principal⟩]⟩, by decide, by decide,
      by decide, by decide⟩⟩

section EstadioLemmas

theorem se_superpone_iff (e : Evento) (ini fin : DT) :
    e.se_superpone_con ini fin = true ↔ ini < e.fecha_fin ∧ e.fecha_inicio < fin := by
  simp only [Evento.se_superpone_con, Bool.not_eq_true', Bool.or_eq_false_iff,
    decide_eq_false_iff_not, not_le, ge_iff_le]

theorem descansoEstadio_single_iff (dias : Nat) (ini fin : DT) (e : Evento) :
    RestriccionDescansoEstadio.validar dias ini fin [e] = none ↔
      e.se_superpone_con ini fin = false
      ∧ ¬(0 ≤ dateOf ini - dateOf e.fecha_fin
            ∧ dateOf ini - dateOf e.fecha_fin < (dias : Int))
      ∧ ¬(0 ≤ dateOf e.fecha_inicio - dateOf fin
            ∧ dateOf e.fecha_inicio - dateOf fin < (dias : Int)) := by
  simp only [RestriccionDescansoEstadio.validar]
  split_ifs with hs h1 h2 <;>
    simp_all [Bool.not_eq_true]

theorem conflictoEstadio_single_iff (ini fin : DT) (e : Evento) :
    Validador.validar_conflicto_estadio ini fin [e] = none ↔
      e.se_superpone_con ini fin = false
      ∧ ¬(0 ≤ dateOf ini - dateOf e.fecha_fin
            ∧ dateOf ini - dateOf e.fecha_fin < (2 : Int))
      ∧ ¬(0 ≤ dateOf e.fecha_inicio - dateOf fin
            ∧ dateOf e.fecha_inicio - dateOf fin < (2 : Int)) := by
  simp only [Validador.validar_conflicto_estadio, Validador.diasDescansoEstadio]
  split_ifs with hs h1 h2 <;>
    simp_all [Bool.not_eq_true]

end EstadioLemmas

/-- C3: for nonempty intervals, two events overlap exactly when their
half-open `[start, end)` intervals intersect (an event ending exactly when
another starts does not overlap); and against one existing event the
facility check passes exactly when there is no overlap and neither
day-granularity boundary gap (candidate start date minus existing end
date, or existing start date minus candidate end date) falls in
`[0, threshold)` — a gap exactly equal to the threshold passes.  Both
implementations (`RestriccionDescansoEstadio.validar` with any threshold,
and `Validador.validar_conflicto_estadio` with its fixed threshold 2)
satisfy the characterization. -/
theorem estadio_solape_y_descanso (e : Evento) (fecha_inicio fecha_fin : DT)
    (he : e.fecha_inicio < e.fecha_fin) (hc : fecha_inicio < fecha_fin) :
    (e.se_superpone_con fecha_inicio fecha_fin = true ↔
      (Set.Ico e.fecha_inicio e.fecha_fin ∩ Set.Ico fecha_inicio fecha_fin).Nonempty)
    ∧ (∀ dias : Nat,
        RestriccionDescansoEstadio.validar dias fecha_inicio fecha_fin [e] = none ↔
          e.se_superpone_con fecha_inicio fecha_fin = false
          ∧ ¬(0 ≤ dateOf fecha_inicio - dateOf e.fecha_fin
                ∧ dateOf fecha_inicio - dateOf e.fecha_fin < (dias : Int))
          ∧ ¬(0 ≤ dateOf e.fecha_inicio - dateOf fecha_fin
                ∧ dateOf e.fecha_inicio - dateOf fecha_fin < (dias : Int)))
    ∧ (Validador.validar_conflicto_estadio fecha_inicio fecha_fin [e] = none ↔
        e.se_superpone_con fecha_inicio fecha_fin = false
        ∧ ¬(0 ≤ dateOf fecha_inicio - dateOf e.fecha_fin
              ∧ dateOf fecha_inicio - dateOf e.fecha_fin < (2 : Int))
        ∧ ¬(0 ≤ dateOf e.fecha_inicio - dateOf fecha_fin
              ∧ dateOf e.fecha_inicio - dateOf fecha_fin < (2 : Int))) := by
  refine ⟨?_, fun dias => descansoEstadio_single_iff dias fecha_inicio fecha_fin e,
    conflictoEstadio_single_iff fecha_inicio fecha_fin e⟩
  rw [se_superpone_iff, Set.Ico_inter_Ico, Set.nonempty_Ico]
  simp only [max_lt_iff, lt_min_iff]
  exact ⟨fun h => ⟨⟨he, h.1⟩, h.2, hc⟩, fun h => ⟨h.1.2, h.2.1⟩⟩

/-- Witness for C3: an existing event on day 0 from 12:00 to 14:00; a
candidate starting exactly at its end does not overlap, and a candidate
two calendar days later (gap exactly equal to the threshold) passes the
facility check. -/
theorem estadio_solape_y_descanso_witness :
    ¬(Set.Ico (720 : Int) 840 ∩ Set.Ico (840 : Int) 960).Nonempty
    ∧ RestriccionDescansoEstadio.validar 2 (2 * 1440 + 720) (2 * 1440 + 840)
        [⟨50, 50, 720, 840, []⟩] = none := by
  constructor
  · intro hn
    have h := (estadio_solape_y_descanso ⟨50, 50, 720, 840, []⟩ 840 960
      (by decide) (by decide)).1.mpr hn
    exact absurd h (by decide)
  · exact ((estadio_solape_y_descanso ⟨50, 50, 720, 840, []⟩ (2 * 1440 + 720)
      (2 * 1440 + 840) (by decide) (by decide)).2.1 2).mpr
      ⟨by decide, by decide, by decide⟩

/-- C4 counterexample: a candidate that directly overlaps the first stored
event and also violates the 2-day rest gap against the second stored
event; both facility-check implementations report only the overlap
conflict of the first event and say nothing about the second, so the two
failures are not both reported. -/
theorem estadio_no_acumula_counterexample :
    Evento.se_superpone_con ⟨101, 11, 720, 840, []⟩ 750 870 = true
    ∧ (0 ≤ dateOf (2160 : DT) - dateOf (870 : DT)
        ∧ dateOf (2160 : DT) - dateOf (870 : DT) < 2)
    ∧ Validador.validar_conflicto_estadio 750 870
        [⟨101, 11, 720, 840, []⟩, ⟨102, 12, 2160, 2280, []⟩] =
        some (.conflictoHorario 11 720 840)
    ∧ RestriccionDescansoEstadio.validar 2 750 870
        [⟨101, 11, 720, 840, []⟩, ⟨102, 12, 2160, 2280, []⟩] =
        some (.solape 11 720) := by
  refine ⟨by decide, by decide, by decide, by decide⟩

/-- C4 (amended): a direct interval overlap with an existing event is
reported as the distinct conflict message (not a days-of-rest message),
and the facility check returns it immediately: no further existing events
are examined at all, so at most one failure is ever reported. -/
theorem estadio_solape_retorna_inmediato (dias : Nat) (fecha_inicio fecha_fin : DT)
    (e : Evento) (resto : List Evento)
    (h : e.se_superpone_con fecha_inicio fecha_fin = true) :
    RestriccionDescansoEstadio.validar dias fecha_inicio fecha_fin (e :: resto) =
      some (.solape e.nombre e.fecha_inicio)
    ∧ Validador.validar_conflicto_estadio fecha_inicio fecha_fin (e :: resto) =
      some (.conflictoHorario e.nombre e.fecha_inicio e.fecha_fin) := by
  constructor
  · simp only [RestriccionDescansoEstadio.validar]
    rw [if_pos h]
  · simp only [Validador.validar_conflicto_estadio]
    rw [if_pos h]

/-- Witness for C4 (amended) at a concrete overlap, with a second stored
event present that is never examined. -/
theorem estadio_solape_retorna_inmediato_witness :
    RestriccionDescansoEstadio.validar 2 750 870
        [⟨101, 11, 720, 840, []⟩, ⟨103, 13, 5000, 5120, []⟩] = some (.solape 11 720)
    ∧ Validador.validar_conflicto_estadio 750 870
        [⟨101, 11, 720, 840, []⟩, ⟨103, 13, 5000, 5120, []⟩] =
        some (.conflictoHorario 11 720 840) :=
  estadio_solape_retorna_inmediato 2 750 870 ⟨101, 11, 720, 840, []⟩
    [⟨103, 13, 5000, 5120, []⟩] (by decide)

section ValidadorCompletoLemmas

/-- The `if mensaje not in errores: errores.append(mensaje)` loop of
`validar_evento_completo`, for a duplicate-free message list: it appends
exactly the messages not already present in the starting list. -/
theorem foldl_dedup_eq (l : List Mensaje) (hnd : l.Nodup) :
    ∀ base : List Mensaje,
      l.foldl (fun acc m => if m ∈ acc then acc else acc ++ [m]) base =
        base ++ l.filter (fun m => !(decide (m ∈ base))) := by
  induction l with
  | nil => intro base; simp
  | cons a l ih =>
    intro base
    rcases List.nodup_cons.mp hnd with ⟨hal, hnd2⟩
    rw [List.foldl_cons, List.filter_cons]
    by_cases ha : a ∈ base
    · rw [if_pos ha]
      have hb : (!(decide (a ∈ base))) = false := by simp [ha]
      rw [hb, if_neg (by simp)]
      exact ih hnd2 base
    · rw [if_neg ha]
      have hb : (!(decide (a ∈ base))) = true := by simp [ha]
      rw [hb, if_pos rfl]
      rw [ih hnd2 (base ++ [a])]
      have hfc : l.filter (fun m => !(decide (m ∈ base ++ [a]))) =
          l.filter (fun m => !(decide (m ∈ base))) := by
        apply List.filter_congr
        intro m hm
        have hma : m ≠ a := fun h => hal (h ▸ hm)
        simp [List.mem_append, hma]
      rw [hfc, List.append_assoc]
      rfl

theorem nodup_three_blocks (b1 b2 : Bool) (l1 : List CoReqErr) (l2 : List ExclErr)
    (o3 : Option EstadioErr) :
    ((if b1 then [] else [Mensaje.restCoReq l1])
      ++ (if b2 then [] else [Mensaje.restExclusion l2])
      ++ (match o3 with
          | none => ([] : List Mensaje)
          | some err => [Mensaje.restEstadio err])).Nodup := by
  cases b1 <;> cases b2 <;> cases o3 <;> simp

theorem validar_restricciones_nodup (recursos : List Recurso) (ini fin : DT)
    (evs : List Evento) :
    (Validador.validar_restricciones recursos ini fin evs).2.Nodup :=
  nodup_three_blocks (RestriccionCoRequisito.validar recursos).1
    (RestriccionExclusionMutua.validar Validador.DIAS_DESCANSO_ARBITROS recursos
      ini fin evs).1
    (RestriccionCoRequisito.validar recursos).2
    (RestriccionExclusionMutua.validar Validador.DIAS_DESCANSO_ARBITROS recursos
      ini fin evs).2
    (RestriccionDescansoEstadio.validar Validador.diasDescansoEstadio ini fin evs)

end ValidadorCompletoLemmas

/-- C5 counterexample: a candidate listing the same principal referee
twice, against one stored event (3 days away) containing that referee.
The full validation returns the availability failure of that referee
twice — two identical strings in the returned list — because only the
step-3 restriction messages are checked against the already-collected
text before being appended. -/
theorem validarEventoCompleto_duplicados_counterexample :
    (Validador.validar_evento_completo
        ⟨70, 71, 720, 840, [⟨1, 1, some .principal⟩, ⟨1, 1, some .principal⟩]⟩
        [⟨60, 61, 5040, 5160, [⟨1, 1, some .principal⟩]⟩]).2 =
      [.arbitroNoDisponible 1 3 3, .arbitroNoDisponible 1 3 3,
       .restCoReq [.sobraPrincipal 2, .faltaLinea 0, .faltaCuarto 0],
       .restExclusion [.noDescanso 1 3 3 7, .noDescanso 1 3 3 7]]
    ∧ ¬ (Validador.validar_evento_completo
        ⟨70, 71, 720, 840, [⟨1, 1, some .principal⟩, ⟨1, 1, some .principal⟩]⟩
        [⟨60, 61, 5040, 5160, [⟨1, 1, some .principal⟩]⟩]).2.Nodup := by
  refine ⟨by decide, by decide⟩

/-- C5 (amended): the full validation evaluates every check — stadium
conflict, per-referee availability, and the three restrictions — with no
short-circuit, passing iff all of them pass, and returns all failure
strings in order; the restriction-step messages are deduplicated by
exact text against the already-collected list, but the stadium and
per-referee messages are appended unconditionally, so those may repeat
(see the counterexample). -/
theorem validarEventoCompleto_caracterizacion (ev : Evento) (evs : List Evento) :
    ((Validador.validar_evento_completo ev evs).1 = true ↔
      Validador.validar_conflicto_estadio ev.fecha_inicio ev.fecha_fin evs = none
      ∧ (∀ r ∈ ev.recursos, r.esArbitro = true →
          Validador.validar_disponibilidad_arbitro r ev.fecha_inicio ev.fecha_fin
            evs = none)
      ∧ (Validador.validar_restricciones ev.recursos ev.fecha_inicio ev.fecha_fin
          evs).1 = true)
    ∧ (Validador.validar_evento_completo ev evs).2 =
        ((Validador.validar_conflicto_estadio ev.fecha_inicio ev.fecha_fin evs).toList
          ++ (ev.recursos.filter (fun r => r.esArbitro)).filterMap
              (fun r => Validador.validar_disponibilidad_arbitro r ev.fecha_inicio
                  ev.fecha_fin evs))
        ++ (Validador.validar_restricciones ev.recursos ev.fecha_inicio ev.fecha_fin
              evs).2.filter
            (fun m => !(decide (m ∈
              (Validador.validar_conflicto_estadio ev.fecha_inicio ev.fecha_fin
                  evs).toList
              ++ (ev.recursos.filter (fun r => r.esArbitro)).filterMap
                  (fun r => Validador.validar_disponibilidad_arbitro r ev.fecha_inicio
                      ev.fecha_fin evs)))) := by
  have hopt : ∀ o : Option Mensaje, o.toList = [] ↔ o = none := by
    intro o; cases o <;> simp
  have hbase :
      (Validador.validar_evento_completo ev evs).2 =
        ((Validador.validar_conflicto_estadio ev.fecha_inicio ev.fecha_fin evs).toList
          ++ (ev.recursos.filter (fun r => r.esArbitro)).filterMap
              (fun r => Validador.validar_disponibilidad_arbitro r ev.fecha_inicio
                  ev.fecha_fin evs))
        ++ (Validador.validar_restricciones ev.recursos ev.fecha_inicio ev.fecha_fin
              evs).2.filter
            (fun m => !(decide (m ∈
              (Validador.validar_conflicto_estadio ev.fecha_inicio ev.fecha_fin
                  evs).toList
              ++ (ev.recursos.filter (fun r => r.esArbitro)).filterMap
                  (fun r => Validador.validar_disponibilidad_arbitro r ev.fecha_inicio
                      ev.fecha_fin evs)))) :=
    foldl_dedup_eq _
      (validar_restricciones_nodup ev.recursos ev.fecha_inicio ev.fecha_fin evs) _
  refine ⟨?_, hbase⟩
  have h1 : (Validador.validar_evento_completo ev evs).1 =
      (Validador.validar_evento_completo ev evs).2.isEmpty := rfl
  rw [h1, hbase, List.isEmpty_iff, List.append_eq_nil, List.append_eq_nil]
  constructor
  · rintro ⟨⟨hp1, hp2⟩, hf⟩
    refine ⟨(hopt _).mp hp1, ?_, ?_⟩
    · intro r hr harb
      exact List.filterMap_eq_nil_iff.mp hp2 r (List.mem_filter.mpr ⟨hr, harb⟩)
    · have hr3 : (Validador.validar_restricciones ev.recursos ev.fecha_inicio
          ev.fecha_fin evs).2 = [] := by
        have := hf
        rw [hp1, hp2] at this
        simpa using this
      have hfst : (Validador.validar_restricciones ev.recursos ev.fecha_inicio
          ev.fecha_fin evs).1 =
          (Validador.validar_restricciones ev.recursos ev.fecha_inicio
            ev.fecha_fin evs).2.isEmpty := rfl
      rw [hfst, hr3]
      rfl
  · rintro ⟨hc, hall, hr3⟩
    have hr3nil : (Validador.validar_restricciones ev.recursos ev.fecha_inicio
        ev.fecha_fin evs).2 = [] := by
      have hfst : (Validador.validar_restricciones ev.recursos ev.fecha_inicio
          ev.fecha_fin evs).1 =
          (Validador.validar_restricciones ev.recursos ev.fecha_inicio
            ev.fecha_fin evs).2.isEmpty := rfl
      rw [hfst, List.isEmpty_iff] at hr3
      exact hr3
    refine ⟨⟨(hopt _).mpr hc, ?_⟩, by rw [hr3nil]; rfl⟩
    exact List.filterMap_eq_nil_iff.mpr
      (fun r hr => hall r (List.mem_filter.mp hr).1 (List.mem_filter.mp hr).2)

/-- Witness for C5 (amended): a complete team on an empty calendar passes
the full validation. -/
theorem validarEventoCompleto_caracterizacion_witness :
    (Validador.validar_evento_completo ⟨80, 81, 720, 840, equipoCompleto⟩ []).1 = true :=
  (validarEventoCompleto_caracterizacion ⟨80, 81, 720, 840, equipoCompleto⟩ []).1.mpr
    ⟨by decide, by decide, by decide⟩

/-- C7: create is all-or-nothing.  If full validation against the stored
events fails, `planificar_evento` returns failure with the accumulated
reason list and the state — both the event map and the resource map — is
returned exactly unchanged; if validation succeeds, the candidate is
inserted keyed by its id and success is reported. -/
theorem planificar_evento_todo_o_nada (p : PlanificadorEventos.Estado) (ev : Evento) :
    ((Validador.validar_evento_completo ev (PlanificadorEventos.obtener_eventos p)).1
        = false →
      PlanificadorEventos.planificar_evento p ev =
        ((false, (Validador.validar_evento_completo ev
            (PlanificadorEventos.obtener_eventos p)).2), p))
    ∧ ((Validador.validar_evento_completo ev (PlanificadorEventos.obtener_eventos p)).1
        = true →
      PlanificadorEventos.planificar_evento p ev =
        ((true, []), ⟨dictSet p.eventos ev.id ev, p.recursos⟩)) := by
  constructor
  · intro h
    simp [PlanificadorEventos.planificar_evento, h]
  · intro h
    simp [PlanificadorEventos.planificar_evento, h]

/-- Witness for C7: an event with no referees is rejected with the
accumulated co-requisite reasons and the empty engine state is unchanged. -/
theorem planificar_evento_todo_o_nada_witness :
    PlanificadorEventos.planificar_evento ⟨[], []⟩ ⟨90, 91, 720, 840, []⟩ =
      ((false, [.restCoReq [.faltaPrincipal 0, .faltaLinea 0, .faltaCuarto 0]]),
        ⟨[], []⟩) := by
  have h := (planificar_evento_todo_o_nada ⟨[], []⟩ ⟨90, 91, 720, 840, []⟩).1 (by decide)
  rw [h]
  decide

/-- C8: with the resource registered, `eliminar_recurso` fails and leaves
the state unchanged exactly when some stored event containing the
resource starts strictly after the moment of the check; when no such
future event exists (all deleted, or their dates passed), the resource is
removed from the registry. -/
theorem eliminar_recurso_guardia (p : PlanificadorEventos.Estado) (rid : Nat)
    (ahora : DT) (hmem : dictContains p.recursos rid = true) :
    ((∃ ev ∈ PlanificadorEventos.obtener_eventos p,
        ev.contiene_recurso rid = true ∧ ahora < ev.fecha_inicio) →
      PlanificadorEventos.eliminar_recurso p rid ahora =
        ((false, .asignadoFuturos
            ((PlanificadorEventos.obtener_eventos_recurso p rid).filter
              (fun e => ahora < e.fecha_inicio)).length), p))
    ∧ ((¬∃ ev ∈ PlanificadorEventos.obtener_eventos p,
        ev.contiene_recurso rid = true ∧ ahora < ev.fecha_inicio) →
      PlanificadorEventos.eliminar_recurso p rid ahora =
        ((true, .eliminado), ⟨p.eventos, dictBorrar p.recursos rid⟩)) := by
  constructor
  · rintro ⟨ev, hev, hc, hfut⟩
    have hmem2 : ev ∈ (PlanificadorEventos.obtener_eventos_recurso p rid).filter
        (fun e => ahora < e.fecha_inicio) :=
      List.mem_filter.mpr ⟨List.mem_filter.mpr ⟨hev, hc⟩, decide_eq_true hfut⟩
    have hne : ((PlanificadorEventos.obtener_eventos_recurso p rid).filter
        (fun e => ahora < e.fecha_inicio)).isEmpty = false := by
      rw [Bool.eq_false_iff]
      intro hemp
      rw [List.isEmpty_iff] at hemp
      rw [hemp] at hmem2
      cases hmem2
    simp [PlanificadorEventos.eliminar_recurso, hmem, hne]
  · intro hno
    have hnil : ((PlanificadorEventos.obtener_eventos_recurso p rid).filter
        (fun e => ahora < e.fecha_inicio)) = [] := by
      rw [List.filter_eq_nil_iff]
      intro e hef
      rcases List.mem_filter.mp hef with ⟨hev, hc⟩
      intro hdec
      exact hno ⟨e, hev, hc, of_decide_eq_true hdec⟩
    simp [PlanificadorEventos.eliminar_recurso, hmem, hnil]

/-- Witness for C8: a referee assigned to one stored event on day 3 cannot
be removed while that date is in the future (the registry is unchanged),
and the same referee is removed once the check happens after that date. -/
theorem eliminar_recurso_guardia_witness :
    PlanificadorEventos.eliminar_recurso
        ⟨[(100, ⟨100, 61, 5040, 5160, [⟨1, 1, some .principal⟩]⟩)],
          [(1, ⟨1, 1, some .principal⟩)]⟩ 1 0 =
      ((false, .asignadoFuturos 1),
        ⟨[(100, ⟨100, 61, 5040, 5160, [⟨1, 1, some .principal⟩]⟩)],
          [(1, ⟨1, 1, some .principal⟩)]⟩)
    ∧ PlanificadorEventos.eliminar_recurso
        ⟨[(100, ⟨100, 61, 5040, 5160, [⟨1, 1, some .principal⟩]⟩)],
          [(1, ⟨1, 1, some .principal⟩)]⟩ 1 9000 =
      ((true, .eliminado),
        ⟨[(100, ⟨100, 61, 5040, 5160, [⟨1, 1, some .principal⟩]⟩)], []⟩) := by
  constructor
  · have h := (eliminar_recurso_guardia
      ⟨[(100, ⟨100, 61, 5040, 5160, [⟨1, 1, some .principal⟩]⟩)],
        [(1, ⟨1, 1, some .principal⟩)]⟩ 1 0 (by decide)).1
      ⟨⟨100, 61, 5040, 5160, [⟨1, 1, some .principal⟩]⟩, by decide, by decide, by decide⟩
    rw [h]
    decide
  · have h := (eliminar_recurso_guardia
      ⟨[(100, ⟨100, 61, 5040, 5160, [⟨1, 1, some .principal⟩]⟩)],
        [(1, ⟨1, 1, some .principal⟩)]⟩ 1 9000 (by decide)).2 (by decide)
    rw [h]
    decide

/-- C9 counterexample: an event whose end timestamp equals its start (a
complete team, empty calendar) passes full validation and is inserted by
create, so the claimed invariant end > start is not enforced by
construction or validation. -/
theorem evento_fin_igual_inicio_counterexample :
    (Validador.validar_evento_completo ⟨95, 96, 720, 720, equipoCompleto⟩ []).1 = true
    ∧ PlanificadorEventos.planificar_evento ⟨[], []⟩
        ⟨95, 96, 720, 720, equipoCompleto⟩ =
        ((true, []), ⟨[(95, ⟨95, 96, 720, 720, equipoCompleto⟩)], []⟩)
    ∧ ¬((⟨95, 96, 720, 720, equipoCompleto⟩ : Evento).fecha_inicio <
        (⟨95, 96, 720, 720, equipoCompleto⟩ : Evento).fecha_fin) := by
  refine ⟨by decide, by decide, by decide⟩

/-- C9 (amended): neither `Evento` construction nor create/modify
validation checks end > start: for every start timestamp, the event with
end equal to start and a complete team is accepted against an empty
calendar and inserted by create.  The invariant holds for CLI-created
events only because the CLI always derives end as start plus its fixed
positive duration (`mainFechaFin`, 2 hours). -/
theorem evento_fin_no_validado (ini : DT) :
    (Validador.validar_evento_completo ⟨95, 96, ini, ini, equipoCompleto⟩ []).1 = true
    ∧ PlanificadorEventos.planificar_evento ⟨[], []⟩
        ⟨95, 96, ini, ini, equipoCompleto⟩ =
        ((true, []), ⟨[(95, ⟨95, 96, ini, ini, equipoCompleto⟩)], []⟩)
    ∧ ini < mainFechaFin ini 2 := by
  refine ⟨rfl, rfl, ?_⟩
  show ini < ini + 120
  exact lt_add_of_pos_right ini (by norm_num)

section BusquedaLemmas

open PlanificadorEventos

theorem probarHora_eq (p : Estado) (ahora : DT) (durH : Nat) (fa : DT) (h : Nat) :
    probarHora p ahora durH fa h =
      if aceptaHorario p ahora durH (replaceHora fa h) then
        some (replaceHora fa h,
          obtener_arbitros_disponibles_todos_tipos p (replaceHora fa h)
            (replaceHora fa h + (durH : Int) * 60))
      else none := by
  unfold probarHora aceptaHorario
  by_cases h1 : replaceHora fa h < ahora
  · rw [if_pos h1]
    have hd : decide (ahora ≤ replaceHora fa h) = false :=
      decide_eq_false (not_le.mpr h1)
    rw [hd]
    simp
  · rw [if_neg h1]
    have hd : decide (ahora ≤ replaceHora fa h) = true :=
      decide_eq_true (not_lt.mp h1)
    rw [hd]
    cases he : verificar_disponibilidad_estadio p (replaceHora fa h)
        (replaceHora fa h + (durH : Int) * 60) with
    | false => simp [he]
    | true =>
      cases hc : hay_equipo_arbitral_completo
          (obtener_arbitros_disponibles_todos_tipos p (replaceHora fa h)
            (replaceHora fa h + (durH : Int) * 60)) with
      | false => simp [he, hc]
      | true => simp [he, hc]

theorem find?_append_eq {α : Type} (q : α → Bool) (l1 l2 : List α) :
    (l1 ++ l2).find? q =
      match l1.find? q with
      | some x => some x
      | none => l2.find? q := by
  induction l1 with
  | nil => rfl
  | cons a l ih =>
    by_cases pa : q a = true
    · simp [List.find?_cons, pa]
    · simp only [List.cons_append, List.find?_cons, Bool.of_not_eq_true pa]
      exact ih

theorem findSome_probar_eq (p : Estado) (ahora : DT) (durH : Nat) (fa : DT)
    (hs : List Nat) :
    hs.findSome? (probarHora p ahora durH fa) =
      ((hs.map (replaceHora fa)).find? (aceptaHorario p ahora durH)).map
        (fun ini => (ini,
          obtener_arbitros_disponibles_todos_tipos p ini (ini + (durH : Int) * 60))) := by
  induction hs with
  | nil => rfl
  | cons h hs ih =>
    rw [List.findSome?_cons, probarHora_eq, List.map_cons, List.find?_cons]
    by_cases hacc : aceptaHorario p ahora durH (replaceHora fa h) = true
    · rw [if_pos hacc, hacc]
      rfl
    · rw [if_neg hacc, Bool.of_not_eq_true hacc]
      exact ih

theorem buscarDias_eq (p : Estado) (ahora : DT) (durH : Nat) :
    ∀ (n : Nat) (fa : DT),
      buscarDias p ahora durH fa n =
        ((candidatosDesde fa n).find? (aceptaHorario p ahora durH)).map
          (fun ini => (ini,
            obtener_arbitros_disponibles_todos_tipos p ini (ini + (durH : Int) * 60)))
  | 0, fa => rfl
  | n + 1, fa => by
    rw [show buscarDias p ahora durH fa (n + 1) =
        (match (horarios_partido).findSome? (probarHora p ahora durH fa) with
         | some res => some res
         | none => buscarDias p ahora durH (fa + 1440) n) from rfl]
    rw [findSome_probar_eq]
    rw [show candidatosDesde fa (n + 1) =
        horarios_partido.map (replaceHora fa) ++ candidatosDesde (fa + 1440) n from rfl]
    rw [find?_append_eq]
    cases hf : (horarios_partido.map (replaceHora fa)).find?
        (aceptaHorario p ahora durH) with
    | some ini => rfl
    | none => exact buscarDias_eq p ahora durH n (fa + 1440)

end BusquedaLemmas

/-- C6 (amended): horizon search returns exactly the first candidate —
enumerating days one at a time from the search start for the whole
horizon, and on each day the kickoff hours 12:00, 15:00, 17:00, 20:00 in
order (`candidatosDesde`) — that is accepted; acceptance
(`aceptaHorario`) skips candidates strictly earlier than the
evaluation-time clock (a candidate exactly equal to the clock is NOT
skipped although it is not strictly in the future), then requires the
facility check and then the 1-2-1 referee quotas; the accepted timestamp
is returned with the per-category availability lists, and exhausting the
horizon yields the non-error `none`. -/
theorem buscar_proximo_horario_caracterizacion (p : PlanificadorEventos.Estado)
    (fecha_desde : DT) (duracion_horas max_dias_busqueda : Nat) (ahora : DT) :
    PlanificadorEventos.buscar_proximo_horario p fecha_desde duracion_horas
        max_dias_busqueda ahora =
      ((candidatosDesde fecha_desde max_dias_busqueda).find?
          (aceptaHorario p ahora duracion_horas)).map
        (fun ini => (ini,
          PlanificadorEventos.obtener_arbitros_disponibles_todos_tipos p ini
            (ini + (duracion_horas : Int) * 60))) :=
  buscarDias_eq p ahora duracion_horas max_dias_busqueda fecha_desde

/-- C6 counterexample: with four registered referees, no stored events,
and the clock exactly at a kickoff instant, the search returns that very
instant — a candidate timestamp that is not strictly in the future is
accepted rather than skipped. -/
theorem buscar_no_salta_presente_counterexample :
    PlanificadorEventos.buscar_proximo_horario
        ⟨[], [(1, ⟨1, 1, some .principal⟩), (2, ⟨2, 2, some .linea⟩),
              (3, ⟨3, 3, some .linea⟩), (4, ⟨4, 4, some .cuarto⟩)]⟩
        720 2 60 720 =
      some (720, ⟨[⟨1, 1, some .principal⟩],
        [⟨2, 2, some .linea⟩, ⟨3, 3, some .linea⟩], [⟨4, 4, some .cuarto⟩]⟩)
    ∧ ¬((720 : DT) < 720) := by
  refine ⟨by decide, by decide⟩
